import Mathlib

/-
Verification development for the summarization microservice
(FastAPI + OpenAI + Redis + TextRank fallback).

Shallow embedding of the core modules:
  app/services/redis_service.py  (cache key, cache get/set, rate limiting)
  app/services/llm_provider.py   (LLM client with tenacity retry)
  app/services/fallback.py       (extractive fallback)
  app/api/v1/endpoints/summarize.py (the orchestration pipeline)

Machine integers are modelled as Nat with explicit reduction mod 2^32 where
the algorithm (SHA-256) depends on 32-bit overflow.  External effects (Redis,
the remote OpenAI call, the sumy TextRank engine) are modelled by explicit
state passing and behaviour oracles.  Wall-clock time is not modelled:
latency_ms is threaded as an uninterpreted value.
-/

/-! ## SHA-256 (hashlib.sha256, as used by RedisService.generate_cache_key)

A faithful executable SHA-256 over byte lists, with bytes and 32-bit words
as Nat reduced mod 2^32. -/

def w32 (n : Nat) : Nat := n % 4294967296

def rotr32 (k x : Nat) : Nat := w32 ((x >>> k) ||| (x <<< (32 - k)))

/-- Small sigma0 of the SHA-256 message schedule. -/
def ssig0 (x : Nat) : Nat := w32 ((rotr32 7 x) ^^^ (rotr32 18 x) ^^^ (x >>> 3))

/-- Small sigma1 of the SHA-256 message schedule. -/
def ssig1 (x : Nat) : Nat := w32 ((rotr32 17 x) ^^^ (rotr32 19 x) ^^^ (x >>> 10))

/-- Big Sigma0 of the SHA-256 compression function. -/
def bsig0 (x : Nat) : Nat := w32 ((rotr32 2 x) ^^^ (rotr32 13 x) ^^^ (rotr32 22 x))

/-- Big Sigma1 of the SHA-256 compression function. -/
def bsig1 (x : Nat) : Nat := w32 ((rotr32 6 x) ^^^ (rotr32 11 x) ^^^ (rotr32 25 x))

def shaK : List Nat :=
  [1116352408, 1899447441, 3049323471, 3921009573, 961987163,
   1508970993, 2453635748, 2870763221, 3624381080, 310598401,
   607225278, 1426881987, 1925078388, 2162078206, 2614888103,
   3248222580, 3835390401, 4022224774, 264347078, 604807628,
   770255983, 1249150122, 1555081692, 1996064986, 2554220882,
   2821834349, 2952996808, 3210313671, 3336571891, 3584528711,
   113926993, 338241895, 666307205, 773529912, 1294757372,
   1396182291, 1695183700, 1986661051, 2177026350, 2456956037,
   2730485921, 2820302411, 3259730800, 3345764771, 3516065817,
   3600352804, 4094571909, 275423344, 430227734, 506948616,
   659060556, 883997877, 958139571, 1322822218, 1537002063,
   1747873779, 1955562222, 2024104815, 2227730452, 2361852424,
   2428436474, 2756734187, 3204031479, 3329325298]

structure Hash8 where
  a : Nat
  b : Nat
  c : Nat
  d : Nat
  e : Nat
  f : Nat
  g : Nat
  h : Nat
deriving DecidableEq, Repr

def shaH0 : Hash8 :=
  ⟨1779033703, 3144134277, 1013904242, 2773480762,
   1359893119, 2600822924, 528734635, 1541459225⟩

/-- Big-endian packing of bytes into 32-bit words, four at a time. -/
def bytesToWords : List Nat → List Nat
  | b0 :: b1 :: b2 :: b3 :: rest => (((b0 * 256 + b1) * 256 + b2) * 256 + b3) :: bytesToWords rest
  | _ => []

/-- Extend a 16-word block to the 64-word SHA-256 message schedule. -/
def extendSchedule (ws16 : List Nat) : Array Nat :=
  (List.range 48).foldl
    (fun ws _ =>
      ws.push (w32 (ws.getD (ws.size - 16) 0 + ssig0 (ws.getD (ws.size - 15) 0)
        + ws.getD (ws.size - 7) 0 + ssig1 (ws.getD (ws.size - 2) 0))))
    ws16.toArray

/-- One SHA-256 compression round. -/
def shaRound (s : Hash8) (k w : Nat) : Hash8 :=
  let ch := w32 ((s.e &&& s.f) ^^^ ((4294967295 - s.e) &&& s.g))
  let temp1 := w32 (s.h + bsig1 s.e + ch + k + w)
  let maj := w32 ((s.a &&& s.b) ^^^ (s.a &&& s.c) ^^^ (s.b &&& s.c))
  let temp2 := w32 (bsig0 s.a + maj)
  ⟨w32 (temp1 + temp2), s.a, s.b, s.c, w32 (s.d + temp1), s.e, s.f, s.g⟩

/-- Process one 64-byte block. -/
def compressBlock (H : Hash8) (block : List Nat) : Hash8 :=
  let ws := extendSchedule (bytesToWords block)
  let s := (List.range 64).foldl (fun s i => shaRound s (shaK.getD i 0) (ws.getD i 0)) H
  ⟨w32 (H.a + s.a), w32 (H.b + s.b), w32 (H.c + s.c), w32 (H.d + s.d),
   w32 (H.e + s.e), w32 (H.f + s.f), w32 (H.g + s.g), w32 (H.h + s.h)⟩

/-- The 8-byte big-endian encoding of the bit length. -/
def lenBytes (n : Nat) : List Nat :=
  [n / 2 ^ 56 % 256, n / 2 ^ 48 % 256, n / 2 ^ 40 % 256, n / 2 ^ 32 % 256,
   n / 2 ^ 24 % 256, n / 2 ^ 16 % 256, n / 2 ^ 8 % 256, n % 256]

/-- SHA-256 padding: append 0x80, zeros to 56 mod 64, then the 64-bit bit length. -/
def shaPad (msg : List Nat) : List Nat :=
  let L := msg.length
  let zeros := (64 + 56 - (L + 1) % 64) % 64
  msg ++ 128 :: (List.replicate zeros 0 ++ lenBytes (8 * L))

/-- Digest the padded message 64 bytes at a time.  The fuel argument makes the
recursion structural; each step consumes at least one byte, so fuel equal to
the byte count never runs out before the message is exhausted. -/
def shaBlocksGo (H : Hash8) : Nat → List Nat → Hash8
  | _, [] => H
  | 0, _ => H
  | fuel + 1, l => shaBlocksGo (compressBlock H (l.take 64)) fuel (l.drop 64)

def sha256 (msg : List Nat) : Hash8 :=
  let padded := shaPad msg
  shaBlocksGo shaH0 padded.length padded

def hexChar (n : Nat) : Char :=
  if n < 10 then Char.ofNat (48 + n) else Char.ofNat (87 + n)

/-- Lowercase hex rendering of one 32-bit word (8 nibbles, big-endian). -/
def wordHex (n : Nat) : String :=
  String.mk [hexChar (n / 2 ^ 28 % 16), hexChar (n / 2 ^ 24 % 16),
             hexChar (n / 2 ^ 20 % 16), hexChar (n / 2 ^ 16 % 16),
             hexChar (n / 2 ^ 12 % 16), hexChar (n / 2 ^ 8 % 16),
             hexChar (n / 2 ^ 4 % 16), hexChar (n % 16)]

/-- hashlib's hexdigest of a SHA-256 state. -/
def sha256hex (msg : List Nat) : String :=
  let d := sha256 msg
  wordHex d.a ++ wordHex d.b ++ wordHex d.c ++ wordHex d.d
    ++ wordHex d.e ++ wordHex d.f ++ wordHex d.g ++ wordHex d.h

/-- UTF-8 encoding of one character (str.encode('utf-8'), per code point). -/
def utf8Char (c : Char) : List Nat :=
  let n := c.toNat
  if n < 128 then [n]
  else if n < 2048 then [192 + n / 64, 128 + n % 64]
  else if n < 65536 then [224 + n / 4096, 128 + n / 64 % 64, 128 + n % 64]
  else [240 + n / 262144, 128 + n / 4096 % 64, 128 + n / 64 % 64, 128 + n % 64]

def utf8Encode (s : String) : List Nat :=
  s.data.foldr (fun c acc => utf8Char c ++ acc) []

/-! ## RedisService.generate_cache_key -/

/-- Model of `RedisService.generate_cache_key`: joins the request fields with a pipe
separator, SHA-256 hashes the UTF-8 bytes, and prepends the `summary:`
namespace. -/
def generate_cache_key (text lang : String) (max_tokens : Nat) (tone : String) : String :=
  let cache_data := text ++ "|" ++ lang ++ "|" ++ Nat.repr max_tokens ++ "|" ++ tone
  let cache_key := sha256hex (utf8Encode cache_data)
  "summary:" ++ cache_key

set_option maxRecDepth 100000


/-- Python str.strip(): drop whitespace from both ends (structural, so that
it evaluates by kernel reduction). -/
def pyStrip (s : String) : String :=
  String.mk (((s.data.dropWhile Char.isWhitespace).reverse.dropWhile Char.isWhitespace).reverse)

/-- Helper for pySplitDot, over the character list. -/
def splitDotGo : List Char → List (List Char)
  | [] => [[]]
  | c :: rest =>
      match splitDotGo rest with
      | [] => [[]]
      | h :: t => if c = '.' then [] :: h :: t else (c :: h) :: t

/-- Python str.split('.') (structural). -/
def pySplitDot (s : String) : List String := (splitDotGo s.data).map String.mk

/-! ## Data model (app/models/requests.py) -/

/-- Token usage counts (the `usage` dict). -/
structure Usage where
  prompt_tokens : Nat
  completion_tokens : Nat
  total_tokens : Nat
deriving DecidableEq, Repr

/-- Model of `SummarizeRequest` after pydantic validation. -/
structure SummarizeRequest where
  text : String
  lang : String
  max_tokens : Nat
  tone : String
deriving DecidableEq, Repr

/-- The pydantic validators of `SummarizeRequest`: non-empty stripped text of
bounded length, supported language and tone, bounded max_tokens. -/
def validRequest (req : SummarizeRequest) : Prop :=
  pyStrip req.text ≠ "" ∧ req.text.length ≤ 50000 ∧
  req.lang ∈ ["auto", "es", "en", "fr", "de", "it", "pt"] ∧
  10 ≤ req.max_tokens ∧ req.max_tokens ≤ 1000 ∧
  req.tone ∈ ["neutral", "concise", "bullet"]

instance (req : SummarizeRequest) : Decidable (validRequest req) := by
  unfold validRequest; infer_instance

/-- Model of `SummarizeResponse`.  `latency_ms` is wall-clock time, not modelled
(threaded as an uninterpreted value). -/
structure SummarizeResponse where
  summary : String
  usage : Usage
  model : String
  latency_ms : Nat
  fallback_used : Bool
  cached : Bool
deriving DecidableEq, Repr

/-- A cached summary entry: the JSON object written by the pipeline
(`summary`, `usage`, `model`, `fallback_used`), already decoded.  Values in
the store that fail to decode are treated as a miss by `get_cached_summary`
(the code catches `json.JSONDecodeError`). -/
structure CacheEntry where
  summary : String
  usage : Usage
  model : String
  fallback_used : Bool
deriving DecidableEq, Repr

/-! ## RedisService state (app/services/redis_service.py)

The Redis connection is modelled by two flags: `available` is the result of
`_ensure_connection` (ping), and `opsFail` means every subsequent store
operation raises a `RedisError`-class exception (caught by each method).
Counters carry their value and the TTL they were created with. -/

structure RedisState where
  available : Bool
  opsFail : Bool
  counters : String → Option (Nat × Nat)
  cache : String → Option CacheEntry

/-- Model of `RedisService.check_rate_limit`: fail-open admission check against a
fixed-window counter.  Returns the admission boolean and the updated store. -/
def check_rate_limit (limit : Nat) (st : RedisState) (api_key : String) :
    Bool × RedisState :=
  if st.available = false then
    -- Redis unavailable: skip rate limiting (graceful degradation)
    (true, st)
  else if st.opsFail then
    -- store operation raised: allow the request (graceful degradation)
    (true, st)
  else
    let rate_key := "rate_limit:" ++ api_key
    match st.counters rate_key with
    | none =>
        -- first request in the window: setex(rate_key, 60, 1)
        (true, { st with counters := fun k => if k = rate_key then some (1, 60) else st.counters k })
    | some (current_count, ttl) =>
        if current_count ≥ limit then
          (false, st)
        else
          -- incr(rate_key); Redis INCR preserves the key's TTL
          (true, { st with counters := fun k => if k = rate_key then some (current_count + 1, ttl) else st.counters k })

/-- Model of `RedisService.get_cached_summary`: returns the decoded entry, or `none` on
miss, connection failure, store error, or JSON decode failure. -/
def get_cached_summary (st : RedisState) (cache_key : String) : Option CacheEntry :=
  if st.available = false then none
  else if st.opsFail then none
  else st.cache cache_key

/-- Model of `RedisService.set_cached_summary`: best-effort `setex` write; returns a
success boolean and the updated store, never raising. -/
def set_cached_summary (st : RedisState) (cache_key : String) (data : CacheEntry) :
    Bool × RedisState :=
  if st.available = false then (false, st)
  else if st.opsFail then (false, st)
  else
    (true, { st with cache := fun k => if k = cache_key then some data else st.cache k })

/-! ## LLM provider (app/services/llm_provider.py)

The openai-python v1 exception classes referenced by the source, with the
library's class hierarchy (openai/_exceptions.py):
  APIError < OpenAIError
  APIStatusError < APIError,  RateLimitError < APIStatusError
  APIConnectionError < APIError,  APITimeoutError < APIConnectionError
`OtherError` stands for any exception outside the openai hierarchy. -/

inductive PyExcClass where
  | RateLimitError
  | APIStatusError
  | APIConnectionError
  | APITimeoutError
  | APIError
  | OtherError
deriving DecidableEq, Repr

/-- The class together with its transitive base classes (openai hierarchy). -/
def ancestors : PyExcClass → List PyExcClass
  | .RateLimitError => [.RateLimitError, .APIStatusError, .APIError]
  | .APIStatusError => [.APIStatusError, .APIError]
  | .APIConnectionError => [.APIConnectionError, .APIError]
  | .APITimeoutError => [.APITimeoutError, .APIConnectionError, .APIError]
  | .APIError => [.APIError]
  | .OtherError => [.OtherError]

/-- Python `isinstance(e, target)` at class level. -/
def isInstanceOf (c target : PyExcClass) : Bool := (ancestors c).contains target

/-- tenacity `retry_if_exception_type((RateLimitError, APIError))`:
retry exactly when the raised exception is an instance of one of the two. -/
def shouldRetry (e : PyExcClass) : Bool :=
  isInstanceOf e .RateLimitError || isInstanceOf e .APIError

/-- tenacity `wait_exponential(multiplier=1, min=1, max=4)`: the delay (s)
before the retry following failed attempt number `k`, clamped to [1, 4]. -/
def backoffDelay (k : Nat) : Nat := max 1 (min (2 ^ k) 4)

/-- The request constructed for `client.responses.create`: model,
instructions (system prompt) and input text — and nothing else; in
particular no token limit field. -/
structure RemoteCall where
  model : String
  instructions : String
  input : String
deriving DecidableEq, Repr

/-- What the remote endpoint hands back on success: `output_text` plus the
`getattr(response, _, 0)` token fields. -/
structure RemoteResponse where
  output_text : String
  usage : Usage
deriving DecidableEq, Repr

/-- The dict returned by `OpenAIProvider.generate_summary`. -/
structure LLMResult where
  summary : String
  usage : Usage
  model : String
deriving DecidableEq, Repr

/-- Model of `OpenAIProvider._build_system_prompt`: language/tone template lookup with
Spanish/neutral defaults. -/
def build_system_prompt (lang tone : String) : String :=
  let language :=
    match lang with
    | "es" => "español" | "en" => "inglés" | "fr" => "francés"
    | "de" => "alemán" | "it" => "italiano" | "pt" => "portugués"
    | "auto" => "el idioma detectado" | _ => "español"
  let tone_desc :=
    match tone with
    | "neutral" => "un tono neutral y objetivo"
    | "concise" => "un tono conciso y directo"
    | "bullet" => "un formato de viñetas (bullet points)"
    | _ => "un tono neutral"
  "Eres un asistente especializado en crear resúmenes de texto en " ++ language ++
  ".\n\nInstrucciones:\n- Crea un resumen claro y preciso del texto proporcionado\n- Mantén " ++
  tone_desc ++
  "\n- Conserva la información más importante y relevante\n- El resumen debe ser coherente y bien estructurado\n- Si el texto está en " ++
  language ++ ", responde en " ++ language ++
  "\n\nResponde únicamente con el resumen, sin explicaciones adicionales."

/-- The remote call built by `generate_summary`: `responses.create(model=...,
instructions=system_prompt, input=text)`.  `max_tokens` is only logged; it is
not part of the request. -/
def buildRemoteCall (model text lang tone : String) : RemoteCall :=
  { model := model, instructions := build_system_prompt lang tone, input := text }

/-- A remote behaviour: what the network does on the `k`-th attempt at a
given request — either an exception class or a response object. -/
def RemoteBehavior : Type := Nat → RemoteCall → Except PyExcClass RemoteResponse

/-- The body of one `generate_summary` attempt (inside the tenacity
decorator): issue the remote call, validate the response (raising `APIError`
when the text is empty or its stripped length is below 10), and map the
`except` clauses — openai-class exceptions are re-raised unchanged, anything
else is wrapped in an `APIError`. -/
def singleAttempt (beh : RemoteBehavior) (k : Nat) (call : RemoteCall) (model : String) :
    Except PyExcClass LLMResult :=
  match beh k call with
  | .error e =>
      if isInstanceOf e .RateLimitError then .error e
      else if isInstanceOf e .APIError then .error e
      else if isInstanceOf e .APITimeoutError then .error e
      else .error .APIError
  | .ok resp =>
      let summary := resp.output_text
      if summary = "" || (pyStrip summary).length < 10 then
        .error .APIError
      else
        .ok { summary := summary, usage := resp.usage, model := model }

/-- Outcome of the retry-wrapped call: the final result, the number of remote
attempts actually made, and the backoff delays slept between attempts. -/
structure RetryOut where
  result : Except PyExcClass LLMResult
  calls : Nat
  delays : List Nat
deriving Repr

/-- The tenacity loop: `retry(stop=stop_after_attempt(maxAttempts),
wait=wait_exponential(multiplier=1, min=1, max=4),
retry=retry_if_exception_type((RateLimitError, APIError)), reraise=True)`.
Attempt `k` failing with a retryable class and `k < maxAttempts` sleeps and
retries; otherwise the last exception is re-raised unchanged. -/
def retryGo (beh : RemoteBehavior) (call : RemoteCall) (model : String) (maxAttempts : Nat) :
    Nat → Nat → RetryOut
  | _, 0 => { result := .error .OtherError, calls := 0, delays := [] }
  | k, fuel + 1 =>
      match singleAttempt beh k call model with
      | .ok r => { result := .ok r, calls := 1, delays := [] }
      | .error e =>
          if shouldRetry e ∧ k < maxAttempts then
            let rest := retryGo beh call model maxAttempts (k + 1) fuel
            { result := rest.result, calls := rest.calls + 1, delays := backoffDelay k :: rest.delays }
          else
            { result := .error e, calls := 1, delays := [] }

/-- Model of `OpenAIProvider.generate_summary` with its tenacity decorator
(`settings.max_retries` attempts; at least one attempt is always made). -/
def llm_generate (maxAttempts : Nat) (beh : RemoteBehavior)
    (text lang : String) (max_tokens : Nat) (tone model : String) : RetryOut :=
  let call := buildRemoteCall model text lang tone
  retryGo beh call model maxAttempts 1 (max 1 maxAttempts)

/-! ## Extractive fallback (app/services/fallback.py)

The sumy TextRank engine (parser, tokenizer, summarizer) is external; it is
modelled by an oracle mapping (text, language, sentence count) to either a
raised exception (any class, collapsed to `Unit`) or the list of selected
sentences rendered as strings. -/

def RankBehavior : Type := String → String → Nat → Except Unit (List String)

/-- Model of `ExtractiveFallback._get_language_code`: short-tag to sumy language name,
defaulting to Spanish. -/
def get_language_code (lang : String) : String :=
  match lang.toLower with
  | "es" => "spanish" | "en" => "english" | "fr" => "french"
  | "de" => "german" | "it" => "italian" | "pt" => "portuguese"
  | "auto" => "spanish" | _ => "spanish"

/-- Model of `ExtractiveFallback._calculate_sentence_count`: target summary length from
the approximate sentence count of the source text. -/
def calculate_sentence_count (text : String) : Nat :=
  let sentences := text.data.count '.' + text.data.count '!' + text.data.count '?'
  if sentences ≤ 5 then max 1 (sentences / 2)
  else if sentences ≤ 20 then max 2 (sentences / 3)
  else max 3 (sentences / 4)

/-- The dict returned by `ExtractiveFallback.generate_summary`. -/
structure FallbackResult where
  summary : String
  usage : Usage
  model : String
  method : String
  sentences_used : Nat
deriving DecidableEq, Repr

/-- Model of `ExtractiveFallback.generate_summary`: TextRank extractive summary; if the
joined TextRank output is blank, fall back to the first `max_sentences`
naive sentences; if the engine raises, fall back to the first 3 naive
sentences under the `fallback-simple` model tag.  Total: never raises. -/
def fallback_generate_summary (rank : RankBehavior)
    (text : String) (lang : String) (max_sentences : Option Nat) : FallbackResult :=
  let zeroUsage : Usage := ⟨0, 0, 0⟩
  let language := get_language_code lang
  let ms := match max_sentences with
            | none => calculate_sentence_count text
            | some n => n
  match rank text language ms with
  | .error _ =>
      -- final fallback: first sentences of the text
      let sentences := pySplitDot text
      let fallback_summary := String.intercalate ". " (sentences.take 3) ++ "."
      { summary := fallback_summary, usage := zeroUsage,
        model := "fallback-simple", method := "simple-extraction", sentences_used := 3 }
  | .ok summary_sentences =>
      let summary := String.intercalate " " summary_sentences
      let summary :=
        if pyStrip summary = "" then
          String.intercalate ". " ((pySplitDot text).take ms) ++ "."
        else summary
      { summary := summary, usage := zeroUsage,
        model := "TextRank-extractive", method := "extractive",
        sentences_used := summary_sentences.length }

/-! ## The pipeline (app/api/v1/endpoints/summarize.py, summarize_text) -/

/-- The two HTTPException outcomes the handler can raise. -/
inductive HttpError where
  | quotaExceeded
  | internalServerError
deriving DecidableEq, Repr

def HttpError.statusCode : HttpError → Nat
  | .quotaExceeded => 429
  | .internalServerError => 500

/-- Settings fields the pipeline reads (app/core/config.py defaults). -/
structure PipelineConfig where
  rate_limit_requests : Nat := 100
  max_retries : Nat := 2
  openai_model : String := "gpt-5-nano"
deriving Repr

/-- The environment of one request: the Redis store plus the behaviour of the
two external engines. -/
structure World where
  redis : RedisState
  llmBeh : RemoteBehavior
  rankBeh : RankBehavior

/-- Observable outcome of one `summarize_text` invocation: the HTTP result,
the final Redis store, and whether `set_cached_summary` was invoked. -/
structure PipelineOut where
  result : Except HttpError SummarizeResponse
  redis : RedisState
  setCalled : Bool

/-- The `summarize_text` endpoint handler: rate-limit admission, cache probe,
primary LLM generation, fallback on any LLM failure, cache population on
non-fallback success.  `latency_ms` is wall-clock time, passed through as an
uninterpreted value `lat`. -/
def summarize_text (cfg : PipelineConfig) (w : World)
    (req : SummarizeRequest) (api_key : String) (lat : Nat) : PipelineOut :=
  -- 1. rate limit check
  let rl := check_rate_limit cfg.rate_limit_requests w.redis api_key
  if rl.1 = false then
    { result := .error .quotaExceeded, redis := rl.2, setCalled := false }
  else
    -- 2. cache key
    let cache_key := generate_cache_key req.text req.lang req.max_tokens req.tone
    -- 3. cache probe
    match get_cached_summary rl.2 cache_key with
    | some cached_result =>
        { result := .ok { summary := cached_result.summary,
                          usage := cached_result.usage,
                          model := cached_result.model,
                          latency_ms := lat,
                          fallback_used := cached_result.fallback_used,
                          cached := true },
          redis := rl.2, setCalled := false }
    | none =>
        -- 4. primary LLM generation with fallback on any exception
        match (llm_generate cfg.max_retries w.llmBeh
                 req.text req.lang req.max_tokens req.tone cfg.openai_model).result with
        | .ok result =>
            -- 5. cache population (non-fallback only)
            let cache_data : CacheEntry :=
              { summary := result.summary, usage := result.usage,
                model := result.model, fallback_used := false }
            let setw := set_cached_summary rl.2 cache_key cache_data
            { result := .ok { summary := result.summary,
                              usage := result.usage,
                              model := result.model,
                              latency_ms := lat,
                              fallback_used := false,
                              cached := false },
              redis := setw.2, setCalled := true }
        | .error _ =>
            let result := fallback_generate_summary w.rankBeh req.text req.lang none
            { result := .ok { summary := result.summary,
                              usage := result.usage,
                              model := result.model,
                              latency_ms := lat,
                              fallback_used := true,
                              cached := false },
              redis := rl.2, setCalled := false }

/-! ## Theorems -/

/-- Modelled from the spec: the target-sentence-count policy of section 4.1
(let s be the count of sentence-terminal punctuation marks; s ≤ 5 gives
max(1, s // 2); s ≤ 20 gives max(2, s // 3); otherwise max(3, s // 4)). -/
def spec_sentence_target (s : Nat) : Nat :=
  if s ≤ 5 then max 1 (s / 2)
  else if s ≤ 20 then max 2 (s / 3)
  else max 3 (s / 4)

/-- Approximate sentence count: terminal punctuation marks in the text. -/
def approx_sentence_count (text : String) : Nat :=
  text.data.count '.' + text.data.count '!' + text.data.count '?'

/-- C9: for every input text, the fallback's target sentence count equals the
spec formula applied to the count of sentence-terminal punctuation marks, and
is always at least 1. -/
theorem calculate_sentence_count_matches_spec (text : String) :
    calculate_sentence_count text = spec_sentence_target (approx_sentence_count text) ∧
    1 ≤ calculate_sentence_count text := by
  have key : calculate_sentence_count text = spec_sentence_target (approx_sentence_count text) := rfl
  refine ⟨key, ?_⟩
  rw [key]
  unfold spec_sentence_target
  split
  · exact Nat.le_max_left 1 _
  split
  · exact le_trans (by norm_num) (Nat.le_max_left 2 _)
  · exact le_trans (by norm_num) (Nat.le_max_left 3 _)

/-- C10: the result of the LLM client's generate operation is independent of
its max_tokens argument — the constructed remote call carries only model,
instructions and input, so two runs differing only in max_tokens coincide. -/
theorem llm_generate_independent_of_max_tokens (maxAttempts : Nat) (beh : RemoteBehavior)
    (text lang tone model : String) (m1 m2 : Nat) :
    buildRemoteCall model text lang tone = buildRemoteCall model text lang tone ∧
    llm_generate maxAttempts beh text lang m1 tone model =
      llm_generate maxAttempts beh text lang m2 tone model :=
  ⟨rfl, rfl⟩

/-- C7: whenever the counter store is unreachable (ping fails) or its
operations error, the admission check returns true and leaves the store
untouched, regardless of any stored counter. -/
theorem check_rate_limit_fail_open (limit : Nat) (st : RedisState) (api_key : String)
    (h : st.available = false ∨ st.opsFail = true) :
    (check_rate_limit limit st api_key).1 = true ∧
    (check_rate_limit limit st api_key).2 = st := by
  unfold check_rate_limit
  rcases h with h | h
  · simp [h]
  · cases hav : st.available
    · simp
    · simp [hav, h]

/-- Store state with the connection down and a counter already at the
ceiling. -/
def downRedis : RedisState :=
  { available := false, opsFail := false,
    counters := fun _ => some (100, 60), cache := fun _ => none }

/-- Witness for C7 at a concrete unavailable store holding a counter at the
ceiling. -/
theorem check_rate_limit_fail_open_witness :
    (check_rate_limit 100 downRedis "client-key").1 = true :=
  (check_rate_limit_fail_open 100 downRedis "client-key" (Or.inl rfl)).1

/-- C6: the cache key is a pure deterministic function of the tuple
(text, lang, max_tokens, tone), always carries the fixed namespace, and
the four single-field parameter variations of a base tuple produce, together
with the base, pairwise distinct keys. -/
theorem generate_cache_key_deterministic_distinct :
    (∀ t1 l1 m1 n1 t2 l2 m2 n2, t1 = t2 → l1 = l2 → m1 = m2 → n1 = n2 →
       generate_cache_key t1 l1 m1 n1 = generate_cache_key t2 l2 m2 n2) ∧
    (∀ t l m n, ∃ body, generate_cache_key t l m n = "summary:" ++ body) ∧
    [generate_cache_key "hello world" "en" 100 "neutral",
     generate_cache_key "hello world!" "en" 100 "neutral",
     generate_cache_key "hello world" "es" 100 "neutral",
     generate_cache_key "hello world" "en" 150 "neutral",
     generate_cache_key "hello world" "en" 100 "bullet"].Pairwise (· ≠ ·) := by
  refine ⟨?_, ?_, ?_⟩
  · intro t1 l1 m1 n1 t2 l2 m2 n2 ht hl hm hn
    subst ht; subst hl; subst hm; subst hn; rfl
  · intro t l m n
    exact ⟨_, rfl⟩
  · have h0 : generate_cache_key "hello world" "en" 100 "neutral" =
        "summary:589098e722c4ed5482214711637b79c4d87af69215901fd31ed726c3f1642bce" := by decide
    have h1 : generate_cache_key "hello world!" "en" 100 "neutral" =
        "summary:15b77a06432da4701dc9cbe6ed15309c8f46b9dc6562e1ff1c45838d26d93dfa" := by decide
    have h2 : generate_cache_key "hello world" "es" 100 "neutral" =
        "summary:0a5fe6e19fed9a52018ec65c81d1826fc26992b103b9202bd97dd4c71317cf4c" := by decide
    have h3 : generate_cache_key "hello world" "en" 150 "neutral" =
        "summary:dc85ed9603e5e8afa273e00ed0116acf34cdeb3c20ffb828efa0587a010ccbc6" := by decide
    have h4 : generate_cache_key "hello world" "en" 100 "bullet" =
        "summary:403a6b1a21b2c64d5994157dfb8c48f27f66cd465f36d6647fab86733a0bfb3c" := by decide
    rw [h0, h1, h2, h3, h4]
    decide

/-- Witness for C6: determinism applied at one concrete argument tuple. -/
theorem generate_cache_key_deterministic_witness :
    generate_cache_key "abc" "es" 50 "concise" = generate_cache_key "abc" "es" 50 "concise" :=
  generate_cache_key_deterministic_distinct.1 "abc" "es" 50 "concise" "abc" "es" 50 "concise"
    rfl rfl rfl rfl

/-- Appending a terminal period yields a non-empty string. -/
theorem append_dot_ne_empty (s : String) : s ++ "." ≠ "" := by
  intro h
  have hlen := congrArg String.length h
  rw [String.length_append] at hlen
  simp only [show String.length "." = 1 from rfl, show String.length "" = 0 from rfl] at hlen
  omega

/-- A string with non-blank strip is non-empty. -/
theorem ne_empty_of_strip_ne_empty (s : String) (h : pyStrip s ≠ "") : s ≠ "" := by
  intro hs; subst hs; exact h (by decide)

/-- A six-sentence input text (target sentence count 2). -/
def c8Text : String := "One. Two. Three. Four. Five. Six."

/-- Engine behaviour returning no usable output without throwing. -/
def emptyRank : RankBehavior := fun _ _ _ => .ok []

/-- Engine behaviour that raises. -/
def errRank : RankBehavior := fun _ _ _ => .error ()

/-- C8 counterexample: on a six-sentence input whose ranking engine returns no
usable output without throwing, generate_summary joins the first
target-count (here 2) sentences, not the first 3, and keeps the ordinary
TextRank-extractive model id rather than a distinct double-fallback id. -/
theorem fallback_empty_output_not_marked :
    (fallback_generate_summary emptyRank c8Text "en" none).summary = "One.  Two." ∧
    (fallback_generate_summary emptyRank c8Text "en" none).summary ≠
      String.intercalate ". " ((pySplitDot c8Text).take 3) ++ "." ∧
    (fallback_generate_summary emptyRank c8Text "en" none).model = "TextRank-extractive" ∧
    (fallback_generate_summary emptyRank c8Text "en" none).model ≠ "fallback-simple" := by
  decide

/-- C8 corrected: the fallback is total — its summary is non-empty for every
input (a terminal period is appended on the degraded paths); when the ranking
engine throws it degrades to the first 3 naive sentences under the distinct
model id fallback-simple; but when the engine merely produces blank output it
joins the first target-count naive sentences and keeps the
TextRank-extractive id. -/
theorem fallback_generate_summary_total (rank : RankBehavior) (text lang : String) :
    (fallback_generate_summary rank text lang none).summary ≠ "" ∧
    (rank text (get_language_code lang) (calculate_sentence_count text) = .error () →
       (fallback_generate_summary rank text lang none).summary =
         String.intercalate ". " ((pySplitDot text).take 3) ++ "." ∧
       (fallback_generate_summary rank text lang none).model = "fallback-simple") ∧
    (∀ sents, rank text (get_language_code lang) (calculate_sentence_count text) = .ok sents →
       pyStrip (String.intercalate " " sents) = "" →
       (fallback_generate_summary rank text lang none).summary =
         String.intercalate ". " ((pySplitDot text).take (calculate_sentence_count text)) ++ "." ∧
       (fallback_generate_summary rank text lang none).model = "TextRank-extractive") := by
  refine ⟨?_, ?_, ?_⟩
  · unfold fallback_generate_summary
    dsimp only
    rcases hr : rank text (get_language_code lang) (calculate_sentence_count text) with u | sents
    · exact append_dot_ne_empty _
    · dsimp only
      by_cases hb : pyStrip (String.intercalate " " sents) = ""
      · simp only [hb, if_pos, if_true]
        exact append_dot_ne_empty _
      · simp only [hb, if_false, if_neg, not_false_iff]
        exact ne_empty_of_strip_ne_empty _ hb
  · intro hr
    unfold fallback_generate_summary
    dsimp only
    rw [hr]
    exact ⟨rfl, rfl⟩
  · intro sents hr hb
    unfold fallback_generate_summary
    dsimp only
    rw [hr]
    dsimp only
    rw [if_pos hb]
    exact ⟨rfl, rfl⟩

/-- Witness for C8 at a concrete throwing engine. -/
theorem fallback_generate_summary_total_witness :
    (fallback_generate_summary errRank "Hi there. Bye." "en" none).model = "fallback-simple" :=
  ((fallback_generate_summary_total errRank "Hi there. Bye." "en").2.1 rfl).2

/-- Remote behaviour that times out on every attempt. -/
def timeoutBeh : RemoteBehavior := fun _ _ => .error .APITimeoutError

/-- C2 counterexample: with the default 2 attempts and a remote that always
times out, the client issues 2 remote calls — the timeout is retried (it is
an instance of APIError through APIConnectionError), not propagated
immediately, which would have meant exactly one call.  The exhausted error is
still re-raised with its class unchanged. -/
theorem timeout_is_retried :
    shouldRetry PyExcClass.APITimeoutError = true ∧
    (llm_generate 2 timeoutBeh "some text" "en" 100 "neutral" "gpt-5-nano").calls = 2 ∧
    (llm_generate 2 timeoutBeh "some text" "en" 100 "neutral" "gpt-5-nano").calls ≠ 1 ∧
    (llm_generate 2 timeoutBeh "some text" "en" 100 "neutral" "gpt-5-nano").result =
      .error .APITimeoutError :=
  ⟨rfl, rfl, by decide, rfl⟩

/-- Attempt-count bounds for the retry loop. -/
theorem retryGo_calls_bounds (beh : RemoteBehavior) (call : RemoteCall) (model : String)
    (maxA : Nat) : ∀ fuel k,
    (retryGo beh call model maxA k fuel).calls ≤ fuel ∧
    (1 ≤ fuel → 1 ≤ (retryGo beh call model maxA k fuel).calls) := by
  intro fuel
  induction fuel with
  | zero =>
    intro k
    simp only [retryGo]
    exact ⟨Nat.le_refl 0, by omega⟩
  | succ n ih =>
    intro k
    simp only [retryGo]
    rcases h : singleAttempt beh k call model with e | r
    · dsimp only
      by_cases hc : shouldRetry e = true ∧ k < maxA
      · rw [if_pos hc]
        have h1 := (ih (k + 1)).1
        dsimp only
        exact ⟨by omega, fun _ => by omega⟩
      · rw [if_neg hc]
        dsimp only
        exact ⟨by omega, fun _ => by omega⟩
    · dsimp only
      exact ⟨by omega, fun _ => by omega⟩

/-- On exhaustion the retry loop's final error is exactly the outcome of its
last attempt (attempt number k + calls - 1), re-raised unchanged.  The
invariant maxA + 1 ≤ k + fuel holds at the top-level entry (k = 1,
fuel = maxA) and is preserved. -/
theorem retryGo_last_error (beh : RemoteBehavior) (call : RemoteCall) (model : String)
    (maxA : Nat) : ∀ fuel k e, 1 ≤ fuel → maxA + 1 ≤ k + fuel →
    (retryGo beh call model maxA k fuel).result = .error e →
    singleAttempt beh (k + (retryGo beh call model maxA k fuel).calls - 1) call model =
      .error e := by
  intro fuel
  induction fuel with
  | zero => intro k e h; omega
  | succ n ih =>
    intro k e hf hinv
    simp only [retryGo]
    rcases h : singleAttempt beh k call model with e' | r
    · dsimp only
      by_cases hc : shouldRetry e' = true ∧ k < maxA
      · rw [if_pos hc]
        dsimp only
        intro hres
        have hn : 1 ≤ n := by omega
        have hidx : k + ((retryGo beh call model maxA (k + 1) n).calls + 1) - 1 =
            k + 1 + (retryGo beh call model maxA (k + 1) n).calls - 1 := by omega
        rw [hidx]
        exact ih (k + 1) e hn (by omega) hres
      · rw [if_neg hc]
        dsimp only
        intro hres
        injection hres with he
        subst he
        simpa using h
    · dsimp only
      intro hres
      simp at hres

/-- Every backoff delay slept by the loop lies within the configured
clamp [1 s, 4 s]. -/
theorem retryGo_delays_clamped (beh : RemoteBehavior) (call : RemoteCall) (model : String)
    (maxA : Nat) : ∀ fuel k d,
    d ∈ (retryGo beh call model maxA k fuel).delays → 1 ≤ d ∧ d ≤ 4 := by
  intro fuel
  induction fuel with
  | zero =>
    intro k d hd
    simp only [retryGo] at hd
    simp at hd
  | succ n ih =>
    intro k d hd
    simp only [retryGo] at hd
    rcases h : singleAttempt beh k call model with e | r
    · rw [h] at hd
      dsimp only at hd
      by_cases hc : shouldRetry e = true ∧ k < maxA
      · rw [if_pos hc] at hd
        dsimp only at hd
        rcases List.mem_cons.mp hd with hd | hd
        · subst hd
          unfold backoffDelay
          constructor
          · exact Nat.le_max_left 1 _
          · exact Nat.max_le.mpr ⟨by norm_num, Nat.min_le_right _ _⟩
        · exact ih (k + 1) d hd
      · rw [if_neg hc] at hd
        simp at hd
    · rw [h] at hd
      simp at hd

/-- A successful result of one attempt has a stripped summary of at least 10
characters (the response validation). -/
theorem singleAttempt_ok_summary (beh : RemoteBehavior) (k : Nat) (call : RemoteCall)
    (model : String) (r : LLMResult) (h : singleAttempt beh k call model = .ok r) :
    10 ≤ (pyStrip r.summary).length ∧ r.model = model := by
  unfold singleAttempt at h
  rcases hb : beh k call with e | resp
  · rw [hb] at h
    dsimp only at h
    by_cases h1 : isInstanceOf e .RateLimitError = true
    · rw [if_pos h1] at h; cases h
    · rw [if_neg h1] at h
      by_cases h2 : isInstanceOf e .APIError = true
      · rw [if_pos h2] at h; cases h
      · rw [if_neg h2] at h
        by_cases h3 : isInstanceOf e .APITimeoutError = true
        · rw [if_pos h3] at h; cases h
        · rw [if_neg h3] at h; cases h
  · rw [hb] at h
    dsimp only at h
    by_cases hv : (resp.output_text = "" || (pyStrip resp.output_text).length < 10) = true
    · rw [if_pos hv] at h; cases h
    · rw [if_neg hv] at h
      injection h with h
      subst h
      refine ⟨?_, rfl⟩
      dsimp only
      by_contra hlt
      exact hv ((Bool.or_eq_true _ _).mpr (Or.inr (decide_eq_true (by omega))))

/-- A successful result of the retry loop satisfies the same validation. -/
theorem retryGo_ok_summary (beh : RemoteBehavior) (call : RemoteCall) (model : String)
    (maxA : Nat) : ∀ fuel k r,
    (retryGo beh call model maxA k fuel).result = .ok r →
    10 ≤ (pyStrip r.summary).length ∧ r.model = model := by
  intro fuel
  induction fuel with
  | zero =>
    intro k r hr
    simp only [retryGo] at hr
    cases hr
  | succ n ih =>
    intro k r hr
    simp only [retryGo] at hr
    rcases h : singleAttempt beh k call model with e | r' 
    · rw [h] at hr
      dsimp only at hr
      by_cases hc : shouldRetry e = true ∧ k < maxA
      · rw [if_pos hc] at hr
        dsimp only at hr
        exact ih (k + 1) r hr
      · rw [if_neg hc] at hr
        cases hr
    · rw [h] at hr
      dsimp only at hr
      injection hr with hr
      subst hr
      exact singleAttempt_ok_summary beh k call model r' h

/-- C2 corrected: the retry predicate is exactly instance-of RateLimitError
or APIError — which, by the provider's exception hierarchy, also covers
Timeout (a subclass of APIError through APIConnectionError) and the
invalid-response failure (raised as an APIError), so those are retried too
rather than propagating immediately; the number of remote calls is bounded by
the configured attempt count; the backoff delays are clamped to [1 s, 4 s];
and when retries are exhausted the last attempt's error is re-raised
unchanged, preserving its class. -/
theorem llm_generate_retry_policy (maxAttempts : Nat) (beh : RemoteBehavior)
    (text lang : String) (mt : Nat) (tone model : String) (hn : 1 ≤ maxAttempts) :
    (∀ e, shouldRetry e = (isInstanceOf e .RateLimitError || isInstanceOf e .APIError)) ∧
    shouldRetry .APITimeoutError = true ∧
    shouldRetry .RateLimitError = true ∧
    shouldRetry .OtherError = false ∧
    1 ≤ (llm_generate maxAttempts beh text lang mt tone model).calls ∧
    (llm_generate maxAttempts beh text lang mt tone model).calls ≤ maxAttempts ∧
    (∀ e, (llm_generate maxAttempts beh text lang mt tone model).result = .error e →
       singleAttempt beh (llm_generate maxAttempts beh text lang mt tone model).calls
         (buildRemoteCall model text lang tone) model = .error e) ∧
    (∀ d, d ∈ (llm_generate maxAttempts beh text lang mt tone model).delays →
       1 ≤ d ∧ d ≤ 4) := by
  have hmax : max 1 maxAttempts = maxAttempts := by omega
  refine ⟨fun e => rfl, rfl, rfl, rfl, ?_, ?_, ?_, ?_⟩
  · unfold llm_generate
    rw [hmax]
    exact (retryGo_calls_bounds beh (buildRemoteCall model text lang tone) model maxAttempts
      maxAttempts 1).2 hn
  · unfold llm_generate
    rw [hmax]
    exact (retryGo_calls_bounds beh (buildRemoteCall model text lang tone) model maxAttempts
      maxAttempts 1).1
  · intro e he
    unfold llm_generate at *
    rw [hmax] at *
    have := retryGo_last_error beh (buildRemoteCall model text lang tone) model maxAttempts
      maxAttempts 1 e hn (by omega) he
    have hidx : 1 + (retryGo beh (buildRemoteCall model text lang tone) model maxAttempts 1
        maxAttempts).calls - 1 =
        (retryGo beh (buildRemoteCall model text lang tone) model maxAttempts 1
        maxAttempts).calls := by omega
    rw [hidx] at this
    exact this
  · intro d hd
    unfold llm_generate at hd
    rw [hmax] at hd
    exact retryGo_delays_clamped beh (buildRemoteCall model text lang tone) model maxAttempts
      maxAttempts 1 d hd

/-- Witness for C2's corrected statement at the default attempt count and an
always-timing-out remote. -/
theorem llm_generate_retry_policy_witness :
    1 ≤ (llm_generate 2 timeoutBeh "some text" "en" 100 "neutral" "gpt-5-nano").calls :=
  (llm_generate_retry_policy 2 timeoutBeh "some text" "en" 100 "neutral" "gpt-5-nano"
    (by decide)).2.2.2.2.1

/-- A live, empty, reachable store at the start of a window. -/
def freshRedis : RedisState :=
  { available := true, opsFail := false, counters := fun _ => none, cache := fun _ => none }

/-- The store after n sequential admission checks for one credential within
one live window, starting from an empty store. -/
def afterCalls (limit : Nat) (api_key : String) : Nat → RedisState
  | 0 => freshRedis
  | n + 1 => (check_rate_limit limit (afterCalls limit api_key n) api_key).2

/-- The admission result of call number n + 1 (after n previous calls). -/
def admittedAt (limit : Nat) (api_key : String) (n : Nat) : Bool :=
  (check_rate_limit limit (afterCalls limit api_key n) api_key).1

/-- Step equation: first call of a window on a live store creates the counter
at 1 with TTL 60 and admits. -/
theorem check_rate_limit_step_none (limit : Nat) (st : RedisState) (key : String)
    (hav : st.available = true) (hop : st.opsFail = false)
    (hcnt : st.counters ("rate_limit:" ++ key) = none) :
    check_rate_limit limit st key =
      (true, { st with counters :=
        fun k => if k = "rate_limit:" ++ key then some (1, 60) else st.counters k }) := by
  unfold check_rate_limit
  simp [hav, hop, hcnt]

/-- Step equation: a live counter below the ceiling admits and increments,
preserving the TTL. -/
theorem check_rate_limit_step_below (limit : Nat) (st : RedisState) (key : String)
    (n ttl : Nat) (hav : st.available = true) (hop : st.opsFail = false)
    (hcnt : st.counters ("rate_limit:" ++ key) = some (n, ttl)) (hlt : n < limit) :
    check_rate_limit limit st key =
      (true, { st with counters :=
        fun k => if k = "rate_limit:" ++ key then some (n + 1, ttl) else st.counters k }) := by
  unfold check_rate_limit
  simp [hav, hop, hcnt, show ¬ n ≥ limit by omega]

/-- Step equation: a live counter at or above the ceiling rejects without
touching the store. -/
theorem check_rate_limit_step_at (limit : Nat) (st : RedisState) (key : String)
    (n ttl : Nat) (hav : st.available = true) (hop : st.opsFail = false)
    (hcnt : st.counters ("rate_limit:" ++ key) = some (n, ttl)) (hge : limit ≤ n) :
    check_rate_limit limit st key = (false, st) := by
  unfold check_rate_limit
  simp [hav, hop, hcnt, show n ≥ limit from hge]

/-- After n ≤ limit sequential calls in one window the store is live and the
credential's counter holds exactly n (absent when n = 0), with TTL 60. -/
theorem afterCalls_counter (limit : Nat) (key : String) : ∀ n, n ≤ limit →
    (afterCalls limit key n).available = true ∧
    (afterCalls limit key n).opsFail = false ∧
    (afterCalls limit key n).counters ("rate_limit:" ++ key) =
      (if n = 0 then none else some (n, 60)) := by
  intro n
  induction n with
  | zero => intro _; exact ⟨rfl, rfl, rfl⟩
  | succ m ih =>
    intro hm
    obtain ⟨hav, hop, hcnt⟩ := ih (by omega)
    have e1 : afterCalls limit key (m + 1) =
        (check_rate_limit limit (afterCalls limit key m) key).2 := rfl
    rcases hm0 : m with _ | m'
    · subst hm0
      simp only [reduceIte] at hcnt
      rw [e1, check_rate_limit_step_none limit _ key hav hop hcnt]
      dsimp only
      exact ⟨hav, hop, by simp⟩
    · subst hm0
      simp only [Nat.succ_ne_zero, if_false] at hcnt
      rw [e1, check_rate_limit_step_below limit _ key (m' + 1) 60 hav hop hcnt (by omega)]
      dsimp only
      exact ⟨hav, hop, by simp⟩

/-- C5: within one live window, the first call creates the counter at 1 with
expiry 60 s and admits; on a live counter a call below the ceiling admits and
increments (preserving TTL), while a call at or above the ceiling rejects
without touching the store; consequently, starting from an empty window,
exactly the first `limit` sequential calls are admitted and the
(limit+1)-th is rejected. -/
theorem rate_limit_fixed_window (limit : Nat) (key : String) (hl : 1 ≤ limit) :
    (admittedAt limit key 0 = true ∧
     (afterCalls limit key 1).counters ("rate_limit:" ++ key) = some (1, 60)) ∧
    (∀ st n ttl, st.available = true → st.opsFail = false →
       st.counters ("rate_limit:" ++ key) = some (n, ttl) →
       (n < limit →
          (check_rate_limit limit st key).1 = true ∧
          (check_rate_limit limit st key).2.counters ("rate_limit:" ++ key) =
            some (n + 1, ttl)) ∧
       (limit ≤ n →
          (check_rate_limit limit st key).1 = false ∧
          (check_rate_limit limit st key).2 = st)) ∧
    (∀ i, i < limit → admittedAt limit key i = true) ∧
    admittedAt limit key limit = false := by
  refine ⟨⟨rfl, ?_⟩, ?_, ?_, ?_⟩
  · have := (afterCalls_counter limit key 1 (by omega)).2.2
    simpa using this
  · intro st n ttl hav hop hcnt
    constructor
    · intro hlt
      rw [check_rate_limit_step_below limit st key n ttl hav hop hcnt hlt]
      exact ⟨rfl, by simp⟩
    · intro hge
      rw [check_rate_limit_step_at limit st key n ttl hav hop hcnt hge]
      exact ⟨rfl, rfl⟩
  · intro i hi
    obtain ⟨hav, hop, hcnt⟩ := afterCalls_counter limit key i (by omega)
    unfold admittedAt
    rcases hi0 : i with _ | i'
    · subst hi0
      simp only [reduceIte] at hcnt
      rw [check_rate_limit_step_none limit _ key hav hop hcnt]
    · subst hi0
      simp only [Nat.succ_ne_zero, if_false] at hcnt
      rw [check_rate_limit_step_below limit _ key (i' + 1) 60 hav hop hcnt (by omega)]
  · obtain ⟨hav, hop, hcnt⟩ := afterCalls_counter limit key limit (by omega)
    unfold admittedAt
    rw [if_neg (by omega : ¬ limit = 0)] at hcnt
    rw [check_rate_limit_step_at limit _ key limit 60 hav hop hcnt (by omega)]

/-- Witness for C5 at ceiling 3: the fourth sequential call is rejected. -/
theorem rate_limit_fixed_window_witness :
    admittedAt 3 "client-key" 3 = false :=
  (rate_limit_fixed_window 3 "client-key" (by decide)).2.2.2

/-- The fallback summary is never empty: every degraded path appends a
terminal period and a non-blank TextRank join is itself non-empty. -/
theorem fallback_summary_ne_empty (rank : RankBehavior) (text lang : String)
    (ms : Option Nat) : (fallback_generate_summary rank text lang ms).summary ≠ "" := by
  rcases ms with _ | n
  all_goals
    unfold fallback_generate_summary
    dsimp only
  · rcases hr : rank text (get_language_code lang) (calculate_sentence_count text) with u | sents
    · exact append_dot_ne_empty _
    · dsimp only
      by_cases hb : pyStrip (String.intercalate " " sents) = ""
      · simp only [hb, if_pos, if_true]
        exact append_dot_ne_empty _
      · simp only [hb, if_false, if_neg, not_false_iff]
        exact ne_empty_of_strip_ne_empty _ hb
  · rcases hr : rank text (get_language_code lang) n with u | sents
    · exact append_dot_ne_empty _
    · dsimp only
      by_cases hb : pyStrip (String.intercalate " " sents) = ""
      · simp only [hb, if_pos, if_true]
        exact append_dot_ne_empty _
      · simp only [hb, if_false, if_neg, not_false_iff]
        exact ne_empty_of_strip_ne_empty _ hb

/-- The admission check never touches the cache, the connection flag, or the
failure flag. -/
theorem check_rate_limit_preserves (limit : Nat) (st : RedisState) (key : String) :
    (check_rate_limit limit st key).2.cache = st.cache ∧
    (check_rate_limit limit st key).2.available = st.available ∧
    (check_rate_limit limit st key).2.opsFail = st.opsFail := by
  unfold check_rate_limit
  dsimp only
  repeat' split
  all_goals exact ⟨rfl, rfl, rfl⟩

/-- A cache hit can only report an entry actually stored under the key. -/
theorem get_cached_summary_eq_some (st : RedisState) (k : String) (e : CacheEntry)
    (h : get_cached_summary st k = some e) : st.cache k = some e := by
  unfold get_cached_summary at h
  split at h
  · cases h
  · split at h
    · cases h
    · exact h

/-- Cache wellformedness: every stored entry has a non-empty summary. -/
def wellformedCache (st : RedisState) : Prop :=
  ∀ k e, st.cache k = some e → e.summary ≠ ""

/-- Writing an entry with a non-empty summary preserves cache
wellformedness. -/
theorem set_cached_summary_wellformed (st : RedisState) (key : String) (data : CacheEntry)
    (hwf : wellformedCache st) (hs : data.summary ≠ "") :
    wellformedCache (set_cached_summary st key data).2 := by
  unfold set_cached_summary
  split
  · exact hwf
  · split
    · exact hwf
    · intro k e h
      dsimp only at h
      by_cases hk : k = key
      · rw [if_pos hk] at h
        injection h with h
        subst h
        exact hs
      · rw [if_neg hk] at h
        exact hwf k e h

/-- Exhaustive case analysis of one pipeline run: quota rejection, cache hit,
primary success with cache write, or fallback after primary failure. -/
theorem summarize_text_spec (cfg : PipelineConfig) (w : World) (req : SummarizeRequest)
    (api_key : String) (lat : Nat) :
    ((check_rate_limit cfg.rate_limit_requests w.redis api_key).1 = false ∧
       summarize_text cfg w req api_key lat =
         ⟨.error .quotaExceeded,
          (check_rate_limit cfg.rate_limit_requests w.redis api_key).2, false⟩) ∨
    ((check_rate_limit cfg.rate_limit_requests w.redis api_key).1 = true ∧
       ∃ entry, get_cached_summary (check_rate_limit cfg.rate_limit_requests w.redis api_key).2
           (generate_cache_key req.text req.lang req.max_tokens req.tone) = some entry ∧
         summarize_text cfg w req api_key lat =
           ⟨.ok ⟨entry.summary, entry.usage, entry.model, lat, entry.fallback_used, true⟩,
            (check_rate_limit cfg.rate_limit_requests w.redis api_key).2, false⟩) ∨
    ((check_rate_limit cfg.rate_limit_requests w.redis api_key).1 = true ∧
       get_cached_summary (check_rate_limit cfg.rate_limit_requests w.redis api_key).2
         (generate_cache_key req.text req.lang req.max_tokens req.tone) = none ∧
       ∃ r, (llm_generate cfg.max_retries w.llmBeh req.text req.lang req.max_tokens req.tone
           cfg.openai_model).result = .ok r ∧
         summarize_text cfg w req api_key lat =
           ⟨.ok ⟨r.summary, r.usage, r.model, lat, false, false⟩,
            (set_cached_summary (check_rate_limit cfg.rate_limit_requests w.redis api_key).2
              (generate_cache_key req.text req.lang req.max_tokens req.tone)
              ⟨r.summary, r.usage, r.model, false⟩).2, true⟩) ∨
    ((check_rate_limit cfg.rate_limit_requests w.redis api_key).1 = true ∧
       get_cached_summary (check_rate_limit cfg.rate_limit_requests w.redis api_key).2
         (generate_cache_key req.text req.lang req.max_tokens req.tone) = none ∧
       ∃ e, (llm_generate cfg.max_retries w.llmBeh req.text req.lang req.max_tokens req.tone
           cfg.openai_model).result = .error e ∧
         summarize_text cfg w req api_key lat =
           ⟨.ok ⟨(fallback_generate_summary w.rankBeh req.text req.lang none).summary,
                 (fallback_generate_summary w.rankBeh req.text req.lang none).usage,
                 (fallback_generate_summary w.rankBeh req.text req.lang none).model,
                 lat, true, false⟩,
            (check_rate_limit cfg.rate_limit_requests w.redis api_key).2, false⟩) := by
  by_cases h1 : (check_rate_limit cfg.rate_limit_requests w.redis api_key).1 = false
  · exact Or.inl ⟨h1, by unfold summarize_text; dsimp only; rw [if_pos h1]⟩
  · have h1t : (check_rate_limit cfg.rate_limit_requests w.redis api_key).1 = true := by
      revert h1; cases (check_rate_limit cfg.rate_limit_requests w.redis api_key).1 <;> simp
    rcases hc : get_cached_summary (check_rate_limit cfg.rate_limit_requests w.redis api_key).2
        (generate_cache_key req.text req.lang req.max_tokens req.tone) with _ | entry
    · rcases hl : (llm_generate cfg.max_retries w.llmBeh req.text req.lang req.max_tokens
          req.tone cfg.openai_model).result with e | r
      · refine Or.inr (Or.inr (Or.inr ⟨h1t, rfl, e, rfl, ?_⟩))
        unfold summarize_text
        dsimp only
        rw [if_neg h1, hc, hl]
      · refine Or.inr (Or.inr (Or.inl ⟨h1t, rfl, r, rfl, ?_⟩))
        unfold summarize_text
        dsimp only
        rw [if_neg h1, hc, hl]
    · refine Or.inr (Or.inl ⟨h1t, entry, rfl, ?_⟩)
      unfold summarize_text
      dsimp only
      rw [if_neg h1, hc]

/-- C1: for every valid request over a wellformed cache (every stored entry
has a non-empty summary — the invariant the pipeline itself maintains, as the
second conjunct shows), if the admission check returns true the pipeline
terminates with a 200 response whose summary is non-empty, whichever of the
cache, primary, or fallback paths produced it. -/
theorem pipeline_nonempty_summary (cfg : PipelineConfig) (w : World)
    (req : SummarizeRequest) (api_key : String) (lat : Nat)
    (hv : validRequest req) (hwf : wellformedCache w.redis)
    (hadm : (check_rate_limit cfg.rate_limit_requests w.redis api_key).1 = true) :
    (∃ resp, (summarize_text cfg w req api_key lat).result = .ok resp ∧
       resp.summary ≠ "") ∧
    wellformedCache (summarize_text cfg w req api_key lat).redis := by
  have hwf1 : wellformedCache (check_rate_limit cfg.rate_limit_requests w.redis api_key).2 := by
    intro k e h
    rw [(check_rate_limit_preserves cfg.rate_limit_requests w.redis api_key).1] at h
    exact hwf k e h
  rcases summarize_text_spec cfg w req api_key lat with
    ⟨h1, hout⟩ | ⟨h1, entry, hc, hout⟩ | ⟨h1, hc, r, hl, hout⟩ | ⟨h1, hc, e, hl, hout⟩
  · rw [hadm] at h1; cases h1
  · rw [hout]
    exact ⟨⟨_, rfl, hwf1 _ entry (get_cached_summary_eq_some _ _ _ hc)⟩, hwf1⟩
  · have h10 := (retryGo_ok_summary w.llmBeh
      (buildRemoteCall cfg.openai_model req.text req.lang req.tone) cfg.openai_model
      cfg.max_retries (max 1 cfg.max_retries) 1 r hl).1
    have hne : r.summary ≠ "" := by
      intro hs
      rw [hs] at h10
      have h0 : (pyStrip "").length = 0 := by decide
      omega
    rw [hout]
    exact ⟨⟨_, rfl, hne⟩, set_cached_summary_wellformed _ _ _ hwf1 hne⟩
  · rw [hout]
    exact ⟨⟨_, rfl, fallback_summary_ne_empty w.rankBeh req.text req.lang none⟩, hwf1⟩

/-- Remote behaviour whose summaries pass the length-10 validation. -/
def okBeh : RemoteBehavior :=
  fun _ _ => .ok ⟨"A sufficiently long generated summary.", ⟨0, 0, 0⟩⟩

/-- A live environment: empty fresh store, healthy remote, healthy engine. -/
def liveWorld : World := ⟨freshRedis, okBeh, fun _ _ _ => .ok []⟩

def reqEx : SummarizeRequest := ⟨"Hello world. This is a test.", "en", 100, "neutral"⟩

/-- Witness for C1 in a live environment. -/
theorem pipeline_nonempty_summary_witness :
    ∃ resp, (summarize_text {} liveWorld reqEx "client-key" 0).result = .ok resp ∧
      resp.summary ≠ "" :=
  (pipeline_nonempty_summary {} liveWorld reqEx "client-key" 0 (by decide)
    (fun _ _ h => Option.noConfusion h) rfl).1

/-- C3: the only error outcome a caller can observe is the 429 quota
rejection, raised exactly when the admission check returns false; in every
other case — including any LLM failure, timeout, invalid response, or store
failure — the pipeline answers with a 200 response. -/
theorem pipeline_only_quota_rejection (cfg : PipelineConfig) (w : World)
    (req : SummarizeRequest) (api_key : String) (lat : Nat) :
    ((check_rate_limit cfg.rate_limit_requests w.redis api_key).1 = false ∧
       (summarize_text cfg w req api_key lat).result = .error .quotaExceeded ∧
       HttpError.statusCode .quotaExceeded = 429) ∨
    ((check_rate_limit cfg.rate_limit_requests w.redis api_key).1 = true ∧
       ∃ resp, (summarize_text cfg w req api_key lat).result = .ok resp) := by
  rcases summarize_text_spec cfg w req api_key lat with
    ⟨h1, hout⟩ | ⟨h1, entry, hc, hout⟩ | ⟨h1, hc, r, hl, hout⟩ | ⟨h1, hc, e, hl, hout⟩
  · exact Or.inl ⟨h1, by rw [hout], rfl⟩
  · exact Or.inr ⟨h1, _, by rw [hout]⟩
  · exact Or.inr ⟨h1, _, by rw [hout]⟩
  · exact Or.inr ⟨h1, _, by rw [hout]⟩

/-- C4: an admitted request that misses the cache and whose primary
generation fails (any failure class) is answered by the fallback with
fallback_used = true, cached = false and a non-empty summary, without
invoking the cache write; and in general the cache write is invoked only on
non-fallback primary success. -/
theorem pipeline_fallback_no_cache_write (cfg : PipelineConfig) (w : World)
    (req : SummarizeRequest) (api_key : String) (lat : Nat)
    (hadm : (check_rate_limit cfg.rate_limit_requests w.redis api_key).1 = true)
    (hmiss : get_cached_summary (check_rate_limit cfg.rate_limit_requests w.redis api_key).2
        (generate_cache_key req.text req.lang req.max_tokens req.tone) = none)
    (hfail : ∃ e, (llm_generate cfg.max_retries w.llmBeh req.text req.lang req.max_tokens
        req.tone cfg.openai_model).result = .error e) :
    (∃ resp, (summarize_text cfg w req api_key lat).result = .ok resp ∧
       resp.fallback_used = true ∧ resp.cached = false ∧ resp.summary ≠ "") ∧
    (summarize_text cfg w req api_key lat).setCalled = false ∧
    (∀ cfg' w' req' key' lat',
       (summarize_text cfg' w' req' key' lat').setCalled = true →
       ∃ resp, (summarize_text cfg' w' req' key' lat').result = .ok resp ∧
         resp.fallback_used = false) := by
  have hgen : ∀ (cfg' : PipelineConfig) (w' : World) (req' : SummarizeRequest)
      (key' : String) (lat' : Nat),
      (summarize_text cfg' w' req' key' lat').setCalled = true →
      ∃ resp, (summarize_text cfg' w' req' key' lat').result = .ok resp ∧
        resp.fallback_used = false := by
    intro cfg' w' req' key' lat' hset
    rcases summarize_text_spec cfg' w' req' key' lat' with
      ⟨h1, hout⟩ | ⟨h1, entry, hc, hout⟩ | ⟨h1, hc, r, hl, hout⟩ | ⟨h1, hc, e, hl, hout⟩
    · rw [hout] at hset; cases hset
    · rw [hout] at hset; cases hset
    · exact ⟨_, by rw [hout], rfl⟩
    · rw [hout] at hset; cases hset
  rcases summarize_text_spec cfg w req api_key lat with
    ⟨h1, hout⟩ | ⟨h1, entry, hc, hout⟩ | ⟨h1, hc, r, hl, hout⟩ | ⟨h1, hc, e, hl, hout⟩
  · rw [hadm] at h1; cases h1
  · rw [hmiss] at hc; cases hc
  · rcases hfail with ⟨e, he⟩
    rw [hl] at he; cases he
  · rw [hout]
    exact ⟨⟨_, rfl, rfl, rfl,
      fallback_summary_ne_empty w.rankBeh req.text req.lang none⟩, rfl, hgen⟩

/-- Remote behaviour that always fails with a connection error. -/
def failBehC4 : RemoteBehavior := fun _ _ => .error .APIConnectionError

/-- Environment with an empty fresh store and a failing remote. -/
def failWorld : World := ⟨freshRedis, failBehC4, fun _ _ _ => .ok []⟩

def reqEx2 : SummarizeRequest := ⟨"Alpha beta. Gamma delta.", "en", 100, "neutral"⟩

/-- Witness for C4 with a failing remote on an empty store. -/
theorem pipeline_fallback_no_cache_write_witness :
    (summarize_text {} failWorld reqEx2 "client-key" 0).setCalled = false :=
  (pipeline_fallback_no_cache_write {} failWorld reqEx2 "client-key" 0 rfl rfl
    ⟨.APIConnectionError, rfl⟩).2.1
